import Mathlib

/-!
Shallow embedding of the asynchronous bridge layer of the `vz` package
(`virtualization.go`): the completion-handler-to-blocking-call adapter, the
state-change broadcast pipeline, the per-device disconnect-event pipeline, the
window-existence lifecycle tracker and the VM teardown path.  Definitions are
translated from the Go source; foreign (Objective-C) behaviour that is not part
of the Go source is modelled from the specification and marked as such.
-/

namespace Vz

/-- Abstract payload of a foreign `NSError` object.  Only identity matters to
the bridge layer, so error payloads are abstracted as natural numbers. -/
abbrev Err := Nat

/-- Embeds `newNSError`: a nil foreign error pointer becomes no error, a
non-nil pointer becomes the corresponding typed error (`nsobject.go`). -/
def newNSError (errPtr : Option Err) : Option Err := errPtr

/-- Association-list lookup, embedding `cgo.Handle.Value()`: resolve a token in
the handle registry to the value registered under it. -/
def resolve {α : Type} : List (Nat × α) → Nat → Option α
  | [], _ => none
  | (k, v) :: rest, t => if k = t then some v else resolve rest t

/-- Helper: reading a list cell just written by `List.set`. -/
theorem get?_set_self {α : Type} (l : List α) (i : Nat) (a : α) (h : i < l.length) :
    (l.set i a).get? i = some a := by
  induction l generalizing i with
  | nil => simp at h
  | cons x xs ih =>
    cases i with
    | zero => rfl
    | succ n =>
      simp only [List.set, List.get?]
      exact ih n (by simpa using h)

/-- Helper: `List.set` leaves every other cell unchanged. -/
theorem get?_set_other {α : Type} (l : List α) (i j : Nat) (a : α) (h : i ≠ j) :
    (l.set i a).get? j = l.get? j := by
  induction l generalizing i j with
  | nil => rfl
  | cons x xs ih =>
    cases i with
    | zero =>
      cases j with
      | zero => exact absurd rfl h
      | succ m => rfl
    | succ n =>
      cases j with
      | zero => rfl
      | succ m =>
        simp only [List.set, List.get?]
        exact ih n m (fun hnm => h (by rw [hnm]))

/-! ## Completion bridge (`virtualization.go` lines 295-352)

`Start`, `Pause`, `Resume` and `Stop` all share the same pattern: build a
one-shot handler and its single-slot channel with `makeHandler`, register the
handler in the cgo handle table with `cgo.NewHandle`, pass the token to the
foreign operation, and block on `<-errCh`.  The foreign runtime later enters
`virtualMachineCompletionHandler` with the token and an optional error pointer;
the handler delivers the converted error into its own channel. -/

/-- The four blocking control operations that use the completion bridge. -/
inductive VMOp where
  | start
  | pause
  | resume
  | stop
  deriving DecidableEq

/-- State of the completion bridge: the cgo handle allocator and table
(token to channel), the heap of single-slot result channels (`none` models an
empty channel on which the caller is still blocked), and the log of foreign
calls issued with their tokens. -/
structure Bridge where
  nextToken : Nat
  registry : List (Nat × Nat)
  chans : List (Option (Option Err))
  calls : List (VMOp × Nat)

/-- Embeds `makeHandler`: allocates a fresh single-slot channel (`ch := make
(chan error, 1)`) and returns its identity; the handler itself is "write the
delivered error into this channel". -/
def makeHandler (b : Bridge) : Bridge × Nat :=
  ({ b with chans := b.chans ++ [none] }, b.chans.length)

/-- Embeds `cgo.NewHandle(h)`: registers the handler (identified by its channel)
under a fresh nonzero token. -/
def newHandle (b : Bridge) (ch : Nat) : Bridge × Nat :=
  ({ b with nextToken := b.nextToken + 1,
            registry := (b.nextToken, ch) :: b.registry }, b.nextToken)

/-- Embeds the shared prologue of `Start`/`Pause`/`Resume`/`Stop`
(`virtualization.go` lines 329-352, 357-363, 368-374, 400-409): `makeHandler`,
`cgo.NewHandle`, then the foreign call carrying the token.  Returns the new
state, the token passed to the foreign operation and the channel the caller
blocks on. -/
def invokeOperation (b : Bridge) (op : VMOp) : Bridge × Nat × Nat :=
  let p1 := makeHandler b
  let p2 := newHandle p1.1 p1.2
  ({ p2.1 with calls := p2.1.calls ++ [(op, p2.2)] }, p2.2, p1.2)

/-- Embeds `virtualMachineCompletionHandler` (`virtualization.go` lines
295-306): resolve the token to the registered handler and invoke it with the
converted error; the handler writes into its own single-slot channel. -/
def virtualMachineCompletionHandler (b : Bridge) (token : Nat) (errPtr : Option Err) : Bridge :=
  match resolve b.registry token with
  | none => b
  | some ch => { b with chans := b.chans.set ch (some (newNSError errPtr)) }

/-- Embeds the blocking `return <-errCh`: the receive yields a value exactly
when the channel already holds one (`none` means the caller is still blocked). -/
def recvErrCh (b : Bridge) (ch : Nat) : Option (Option Err) :=
  (b.chans.get? ch).join

/-- Unfolding equation for `invokeOperation`. -/
theorem invokeOperation_eq (b : Bridge) (op : VMOp) :
    invokeOperation b op =
      ({ nextToken := b.nextToken + 1,
         registry := (b.nextToken, b.chans.length) :: b.registry,
         chans := b.chans ++ [none],
         calls := b.calls ++ [(op, b.nextToken)] }, b.nextToken, b.chans.length) := rfl

/-- Unfolding equation for `resolve` on a nonempty registry. -/
theorem resolve_cons {α : Type} (k : Nat) (v : α) (rest : List (Nat × α)) (t : Nat) :
    resolve ((k, v) :: rest) t = if k = t then some v else resolve rest t := rfl

/-- Helper: reading the first element appended after a list. -/
theorem get?_append_cons {α : Type} (l : List α) (a : α) (rest : List α) :
    (l ++ a :: rest).get? l.length = some a := by
  induction l with
  | nil => rfl
  | cons x xs ih => simpa using ih

/-- C1: for two outstanding invocations of blocking control operations, each
caller is blocked until its own completion fires, and after both completions
fire (in either order) each caller receives exactly the error passed to its own
invocation's completion callback — no cross-delivery. -/
theorem completion_bridge_no_cross_delivery (b : Bridge) (op1 op2 : VMOp)
    (e1 e2 : Option Err) :
    let r1 := invokeOperation b op1
    let r2 := invokeOperation r1.1 op2
    let t1 := r1.2.1
    let c1 := r1.2.2
    let t2 := r2.2.1
    let c2 := r2.2.2
    t1 ≠ t2 ∧ c1 ≠ c2 ∧
    recvErrCh r2.1 c1 = none ∧
    recvErrCh r2.1 c2 = none ∧
    (let b3 := virtualMachineCompletionHandler r2.1 t1 e1
     let b4 := virtualMachineCompletionHandler b3 t2 e2
     recvErrCh b4 c1 = some (newNSError e1) ∧
     recvErrCh b4 c2 = some (newNSError e2)) ∧
    (let b3 := virtualMachineCompletionHandler r2.1 t2 e2
     let b4 := virtualMachineCompletionHandler b3 t1 e1
     recvErrCh b4 c1 = some (newNSError e1) ∧
     recvErrCh b4 c2 = some (newNSError e2)) := by
  simp only [invokeOperation_eq]
  have hc1lt : b.chans.length < (b.chans ++ [none] ++ [none]).length := by
    simp
  have hc2lt : (b.chans ++ [none]).length < (b.chans ++ [none] ++ [none]).length := by
    simp
  have hne : b.chans.length ≠ (b.chans ++ [none]).length := by
    simp
  have hres1 : resolve ((b.nextToken + 1, (b.chans ++ [none]).length) ::
      (b.nextToken, b.chans.length) :: b.registry) b.nextToken = some b.chans.length := by
    rw [resolve_cons, if_neg (by omega), resolve_cons, if_pos rfl]
  have hres2 : resolve ((b.nextToken + 1, (b.chans ++ [none]).length) ::
      (b.nextToken, b.chans.length) :: b.registry) (b.nextToken + 1) =
      some (b.chans ++ [none]).length := by
    rw [resolve_cons, if_pos rfl]
  refine ⟨by omega, by simpa using hne, ?_, ?_, ?_, ?_⟩
  · show ((b.chans ++ [none] ++ [none]).get? b.chans.length).join = none
    rw [List.append_assoc]
    simp only [List.singleton_append]
    rw [get?_append_cons]
    rfl
  · show ((b.chans ++ [none] ++ [none]).get? (b.chans ++ [none]).length).join = none
    rw [get?_append_cons]
    rfl
  · simp only [virtualMachineCompletionHandler, hres1, hres2, recvErrCh]
    constructor
    · rw [get?_set_other _ _ _ _ (Ne.symm hne), get?_set_self _ _ _ hc1lt]
      rfl
    · rw [get?_set_self]
      · rfl
      · simpa using hc2lt
  · simp only [virtualMachineCompletionHandler, hres1, hres2, recvErrCh]
    constructor
    · rw [get?_set_self]
      · rfl
      · simpa using hc1lt
    · rw [get?_set_other _ _ _ _ hne, get?_set_self _ _ _ hc2lt]
      rfl

/-! ## State channel (`virtualization.go` lines 113-118, 220-231, 250-262)

`machineState` holds the current `VirtualMachineState` and one
`infinity.Channel[VirtualMachineState]` created once in `NewVirtualMachine`.
The foreign state observer enters `changeStateOnObserver`, which stores the new
state and sends it into the channel.  `State` reads the stored state;
`StateChangedNotify` returns `stateNotify.Out()` — the output side of that one
channel.  An infinity channel is an unbounded FIFO; a receive on its output
delivers each buffered value to exactly one receiver.  Channels are modelled by
identity (`ChanId`) with a heap of FIFO queues. -/

/-- Embeds Go `type VirtualMachineState int`. -/
abbrev VirtualMachineState := Int

/-- Initial state before the virtual machine is started. -/
def VirtualMachineStateStopped : VirtualMachineState := 0

/-- Running virtual machine. -/
def VirtualMachineStateRunning : VirtualMachineState := 1

/-- A started virtual machine is paused. -/
def VirtualMachineStatePaused : VirtualMachineState := 2

/-- Identity of an `infinity.Channel`. -/
abbrev ChanId := Nat

/-- Embeds `machineState`: the current execution state and the per-VM
`stateNotify` channel (held by reference in Go, so modelled by identity). -/
structure machineState where
  state : VirtualMachineState
  stateNotify : ChanId

/-- World for the state pipeline: the `machineState` record and the heap of
infinity-channel buffers (per channel, the FIFO queue of published but not yet
received values). -/
structure StateWorld where
  ms : machineState
  chanQueue : ChanId → List VirtualMachineState

/-- Embeds `changeStateOnObserver` (`virtualization.go` lines 220-231): store
the new state and send it into the `stateNotify` channel. -/
def changeStateOnObserver (w : StateWorld) (newStateRaw : Int) : StateWorld :=
  let newState : VirtualMachineState := newStateRaw
  { ms := { state := newState, stateNotify := w.ms.stateNotify },
    chanQueue := fun c =>
      if c = w.ms.stateNotify then w.chanQueue c ++ [newState] else w.chanQueue c }

/-- Embeds `State` (`virtualization.go` lines 250-255): read the stored state. -/
def State (w : StateWorld) : VirtualMachineState := w.ms.state

/-- Embeds `StateChangedNotify` (`virtualization.go` lines 257-262): return
`v.machineState.stateNotify.Out()` — the output side of the one per-VM
channel.  Every call returns the same channel. -/
def StateChangedNotify (w : StateWorld) : ChanId := w.ms.stateNotify

/-- Go channel receive on an infinity channel's output: destructive FIFO
dequeue — each buffered value is delivered to exactly one receiver.  `none`
models a receive that would block (empty buffer). -/
def recvChan (w : StateWorld) (c : ChanId) : Option VirtualMachineState × StateWorld :=
  match w.chanQueue c with
  | [] => (none, w)
  | s :: rest =>
    (some s, { w with chanQueue := fun d => if d = c then rest else w.chanQueue d })

/-- A sequence of `n` foreign state-observer callbacks. -/
def applyCallbacks (w : StateWorld) (l : List Int) : StateWorld :=
  l.foldl changeStateOnObserver w

/-- A sequence of `n` receives on channel `c`, collecting the delivered values
in order. -/
def recvList (w : StateWorld) (c : ChanId) : Nat → List VirtualMachineState × StateWorld
  | 0 => ([], w)
  | n + 1 =>
    match recvChan w c with
    | (none, w1) => ([], w1)
    | (some s, w1) =>
      let r := recvList w1 c n
      (s :: r.1, r.2)

/-- Helper: the state observer never changes which channel `stateNotify` is. -/
theorem applyCallbacks_stateNotify (l : List Int) (w : StateWorld) :
    (applyCallbacks w l).ms.stateNotify = w.ms.stateNotify := by
  induction l generalizing w with
  | nil => rfl
  | cons x xs ih => simpa [applyCallbacks, changeStateOnObserver] using ih _

/-- Helper: N callbacks append the N states, in firing order, to the notify
channel's buffer. -/
theorem applyCallbacks_queue (l : List Int) (w : StateWorld) :
    (applyCallbacks w l).chanQueue w.ms.stateNotify =
      w.chanQueue w.ms.stateNotify ++ l := by
  induction l generalizing w with
  | nil => simp [applyCallbacks]
  | cons x xs ih =>
    show (applyCallbacks (changeStateOnObserver w x) xs).chanQueue w.ms.stateNotify = _
    have hsn : (changeStateOnObserver w x).ms.stateNotify = w.ms.stateNotify := rfl
    rw [← hsn, ih]
    simp [changeStateOnObserver]

/-- Helper: after N callbacks the stored state is the last one fired. -/
theorem applyCallbacks_state (l : List Int) (w : StateWorld) :
    (applyCallbacks w l).ms.state = l.getLast?.getD w.ms.state := by
  induction l generalizing w with
  | nil => rfl
  | cons x xs ih =>
    show (applyCallbacks (changeStateOnObserver w x) xs).ms.state = _
    rw [ih]
    cases xs with
    | nil => rfl
    | cons y ys =>
      rw [List.getLast?_cons_cons, List.getLast?_eq_getLast (y :: ys) (by simp)]
      rfl

/-- Helper: `k` receives on a channel dequeue the first `k` buffered values in
order, each exactly once. -/
theorem recvList_take (k : Nat) (w : StateWorld) (c : ChanId) :
    (recvList w c k).1 = (w.chanQueue c).take k ∧
    (recvList w c k).2.chanQueue c = (w.chanQueue c).drop k := by
  induction k generalizing w with
  | zero => exact ⟨rfl, rfl⟩
  | succ n ih =>
    cases hq : w.chanQueue c with
    | nil => simp [recvList, recvChan, hq]
    | cons s rest =>
      have hrecv : recvChan w c =
          (some s, { w with chanQueue := fun d => if d = c then rest else w.chanQueue d }) := by
        simp [recvChan, hq]
      have hq' : ({ w with chanQueue := fun d => if d = c then rest else w.chanQueue d }
          : StateWorld).chanQueue c = rest := by
        simp
      have := ih { w with chanQueue := fun d => if d = c then rest else w.chanQueue d }
      rw [hq'] at this
      simp [recvList, hrecv, hq, this.1, this.2]

/-- C3: after N state-observer callbacks, `State` returns the state carried by
the Nth callback, and a subscriber whose channel was obtained before the first
callback receives exactly the N states, in firing order, with no coalescing of
repeated identical states (the delivered list is the callback list itself), and
an (N+1)st receive finds nothing. -/
theorem state_observer_delivery (w : StateWorld) (l : List Int) (hne : l ≠ [])
    (hq : w.chanQueue (StateChangedNotify w) = []) :
    State (applyCallbacks w l) = l.getLast hne ∧
    (recvList (applyCallbacks w l) (StateChangedNotify w) l.length).1 = l ∧
    (recvChan (recvList (applyCallbacks w l) (StateChangedNotify w) l.length).2
      (StateChangedNotify w)).1 = none := by
  have hq' : w.chanQueue w.ms.stateNotify = [] := hq
  have hqueue : (applyCallbacks w l).chanQueue (StateChangedNotify w) = l := by
    show (applyCallbacks w l).chanQueue w.ms.stateNotify = l
    rw [applyCallbacks_queue, hq']
    rfl
  have htake := recvList_take l.length (applyCallbacks w l) (StateChangedNotify w)
  rw [hqueue] at htake
  refine ⟨?_, ?_, ?_⟩
  · rw [State, applyCallbacks_state, List.getLast?_eq_getLast l hne]
    rfl
  · rw [htake.1, List.take_length]
  · have h2 : (recvList (applyCallbacks w l) (StateChangedNotify w) l.length).2.chanQueue
        (StateChangedNotify w) = [] := by
      rw [htake.2, List.drop_length]
    simp [recvChan, h2]

/-- Concrete fresh state world, as built by `NewVirtualMachine`: state 0
(Stopped) and an empty notify channel. -/
def initialStateWorld : StateWorld :=
  { ms := { state := VirtualMachineStateStopped, stateNotify := 0 },
    chanQueue := fun _ => [] }

/-- Witness for `state_observer_delivery` at a concrete input with a repeated
state, showing no de-duplication. -/
theorem state_observer_delivery_witness :
    (([1, 1, 2] : List Int) ≠ [] ∧
      initialStateWorld.chanQueue (StateChangedNotify initialStateWorld) = []) ∧
    (State (applyCallbacks initialStateWorld [1, 1, 2]) =
        ([1, 1, 2] : List Int).getLast (by decide) ∧
      (recvList (applyCallbacks initialStateWorld [1, 1, 2])
        (StateChangedNotify initialStateWorld) ([1, 1, 2] : List Int).length).1 = [1, 1, 2] ∧
      (recvChan (recvList (applyCallbacks initialStateWorld [1, 1, 2])
          (StateChangedNotify initialStateWorld) ([1, 1, 2] : List Int).length).2
        (StateChangedNotify initialStateWorld)).1 = none) :=
  ⟨⟨by decide, rfl⟩, state_observer_delivery initialStateWorld [1, 1, 2] (by decide) rfl⟩

/-- Channel handed to subscriber A by its `StateChangedNotify` call. -/
def subscriberA : ChanId := StateChangedNotify initialStateWorld

/-- Channel handed to subscriber B by its (second) `StateChangedNotify` call. -/
def subscriberB : ChanId := StateChangedNotify initialStateWorld

/-- World after the runtime publishes Running then Paused, with both
subscribers already attached. -/
def c4World : StateWorld :=
  changeStateOnObserver (changeStateOnObserver initialStateWorld
    VirtualMachineStateRunning) VirtualMachineStatePaused

/-- Subscriber A's first receive. -/
def c4recvA : Option VirtualMachineState × StateWorld := recvChan c4World subscriberA

/-- Subscriber B's first receive, after A's. -/
def c4recvB : Option VirtualMachineState × StateWorld := recvChan c4recvA.2 subscriberB

/-- Subscriber B's second receive. -/
def c4recvB2 : Option VirtualMachineState × StateWorld := recvChan c4recvB.2 subscriberB

/-- C4 counterexample: the two `StateChangedNotify` calls return the same
channel, not independent streams; with two states (Running, Paused) published
after both subscriptions, subscriber A's receive consumes Running, so
subscriber B — attached before the first publication — receives only Paused and
then nothing: B does not receive every state published after its
subscription. -/
theorem stateChangedNotify_shared_channel_counterexample :
    subscriberB = subscriberA ∧
    c4recvA.1 = some VirtualMachineStateRunning ∧
    c4recvB.1 = some VirtualMachineStatePaused ∧
    c4recvB2.1 = none ∧
    c4recvB.1 ≠ some VirtualMachineStateRunning := by
  refine ⟨rfl, rfl, rfl, rfl, by decide⟩

/-- C4 amended: `StateChangedNotify` may be called multiple times, but every
call returns the same per-VM channel (it is unchanged by any number of state
callbacks), and receives on it — by whichever subscribers — collectively
dequeue the published states in publish order with each state delivered to
exactly one receiver: concurrently attached subscribers partition the stream
rather than each receiving all of it. -/
theorem stateChangedNotify_shared_partition (w : StateWorld) (l : List Int)
    (hq : w.chanQueue (StateChangedNotify w) = []) :
    StateChangedNotify (applyCallbacks w l) = StateChangedNotify w ∧
    ∀ k : Nat,
      (recvList (applyCallbacks w l) (StateChangedNotify w) k).1 = l.take k ∧
      (recvList (applyCallbacks w l) (StateChangedNotify w) k).2.chanQueue
        (StateChangedNotify w) = l.drop k := by
  have hq' : w.chanQueue w.ms.stateNotify = [] := hq
  have hqueue : (applyCallbacks w l).chanQueue (StateChangedNotify w) = l := by
    show (applyCallbacks w l).chanQueue w.ms.stateNotify = l
    rw [applyCallbacks_queue, hq']
    rfl
  refine ⟨applyCallbacks_stateNotify l w, fun k => ?_⟩
  have h := recvList_take k (applyCallbacks w l) (StateChangedNotify w)
  rw [hqueue] at h
  exact h

/-- Witness for `stateChangedNotify_shared_partition` at a concrete input:
after publishing Running and Paused, one receive dequeues exactly Running and
leaves exactly Paused for the other subscriber. -/
theorem stateChangedNotify_shared_partition_witness :
    initialStateWorld.chanQueue (StateChangedNotify initialStateWorld) = [] ∧
    (StateChangedNotify (applyCallbacks initialStateWorld [1, 2]) =
        StateChangedNotify initialStateWorld ∧
      ∀ k : Nat,
        (recvList (applyCallbacks initialStateWorld [1, 2])
          (StateChangedNotify initialStateWorld) k).1 = ([1, 2] : List Int).take k ∧
        (recvList (applyCallbacks initialStateWorld [1, 2])
          (StateChangedNotify initialStateWorld) k).2.chanQueue
          (StateChangedNotify initialStateWorld) = ([1, 2] : List Int).drop k) :=
  ⟨rfl, stateChangedNotify_shared_partition initialStateWorld [1, 2] rfl⟩

/-! ## Disconnect pipeline (`virtualization.go` lines 533-613)

Stage 1: the foreign callback `emitAttachmentWasDisconnected` sends a raw
`disconnected{err, index}` into the per-VM stage-1 infinity channel; the
foreign `closeAttachmentWasDisconnectedChannel` callback closes that channel at
teardown.  Stage 2: the `watchDisconnected` worker — spawned at most once by
`NetworkDeviceAttachmentWasDisconnected` via `watchDisconnectedOnce` — ranges
over the stage-1 channel, enriches each event with the device configuration at
its index, publishes a `DisconnectedError` on the public channel, and closes
the public channel when the range loop terminates. -/

/-- Abstract `VirtioNetworkDeviceConfiguration`; only identity matters here. -/
structure VirtioNetworkDeviceConfiguration where
  attachment : Nat
  deriving DecidableEq

/-- Embeds `DisconnectedError` (`virtualization.go` lines 535-543). -/
structure DisconnectedError where
  Err : Option Nat
  Config : Option VirtioNetworkDeviceConfiguration
  deriving DecidableEq

/-- Embeds `disconnected` (`virtualization.go` lines 555-558): the raw stage-1
event. -/
structure disconnected where
  err : Option Nat
  index : Int
  deriving DecidableEq

/-- Modelled from the spec: `sliceutil.FindValueByIndex` is repository code not
under `src/`.  Per the spec, the device configuration is empty when the index
cannot be resolved against the stored configuration list (out of range),
otherwise it is the configuration at that index. -/
def FindValueByIndex (l : List VirtioNetworkDeviceConfiguration) (index : Int) :
    Option VirtioNetworkDeviceConfiguration :=
  if h : 0 ≤ index ∧ index.toNat < l.length then some (l.get ⟨index.toNat, h.2⟩) else none

/-- Embeds the loop body of `watchDisconnected` (`virtualization.go` lines
578-589): look up the configuration at the event's device index and build the
published error. -/
def emitDisconnectedError (config : List VirtioNetworkDeviceConfiguration)
    (d : disconnected) : DisconnectedError :=
  { Err := d.err, Config := FindValueByIndex config d.index }

/-- Embeds the publishing behaviour of `watchDisconnected`: one enriched
`DisconnectedError` per stage-1 event, in order. -/
def watchDisconnected (config : List VirtioNetworkDeviceConfiguration)
    (events : List disconnected) : List DisconnectedError :=
  events.map (emitDisconnectedError config)

/-- Embeds `emitAttachmentWasDisconnected` (`virtualization.go` lines
593-604): the foreign callback converts the error pointer and sends the raw
event into the stage-1 channel. -/
def emitAttachmentWasDisconnected (stage1 : List disconnected) (index : Int)
    (errPtr : Option Err) : List disconnected :=
  stage1 ++ [{ err := newNSError errPtr, index := index }]

/-- Action trace of the stage-2 worker. -/
inductive DiscAction where
  | publish (e : DisconnectedError)
  | closeOut
  deriving DecidableEq

/-- Embeds the whole `watchDisconnected` worker (`virtualization.go` lines
577-591) as its action trace: it publishes one enriched error per stage-1
event in arrival order, and exactly when the stage-1 channel has been closed
(by `closeAttachmentWasDisconnectedChannel`, lines 606-613) its range loop
terminates and it closes the public output channel. -/
def watchDisconnectedTrace (config : List VirtioNetworkDeviceConfiguration)
    (events : List disconnected) (inClosed : Bool) : List DiscAction :=
  (events.map (fun d => DiscAction.publish (emitDisconnectedError config d))) ++
    (if inClosed then [DiscAction.closeOut] else [])

/-- Once-latch portion of the VM record used by
`NetworkDeviceAttachmentWasDisconnected`: the `watchDisconnectedOnce` flag and
a count of worker spawns. -/
structure WatchState where
  watchStarted : Bool
  spawnCount : Nat
  deriving DecidableEq

/-- Embeds `NetworkDeviceAttachmentWasDisconnected` (`virtualization.go` lines
566-574): fails on macOS before 12; otherwise `watchDisconnectedOnce.Do`
spawns the worker only if it has never been spawned.  `none` models the error
return. -/
def NetworkDeviceAttachmentWasDisconnected (macOSVersion : Nat) (v : WatchState) :
    Option WatchState :=
  if macOSVersion < 12 then none
  else if v.watchStarted then some v
  else some { watchStarted := true, spawnCount := v.spawnCount + 1 }

/-- A sequence of `n` calls to `NetworkDeviceAttachmentWasDisconnected`. -/
def subscribeCalls (macOSVersion : Nat) (v : WatchState) : Nat → WatchState
  | 0 => v
  | n + 1 =>
    match NetworkDeviceAttachmentWasDisconnected macOSVersion v with
    | none => subscribeCalls macOSVersion v n
    | some v1 => subscribeCalls macOSVersion v1 n

/-- Helper: once the worker latch is set, further subscriptions change
nothing. -/
theorem subscribeCalls_started (macOSVersion : Nat) (m : Nat) (v : WatchState)
    (h : v.watchStarted = true) : subscribeCalls macOSVersion v m = v := by
  induction m with
  | zero => rfl
  | succ n ih =>
    rw [subscribeCalls, NetworkDeviceAttachmentWasDisconnected]
    by_cases hv : macOSVersion < 12
    · rw [if_pos hv]
      exact ih
    · rw [if_neg hv, h, if_pos rfl]
      exact ih

/-- C9: the disconnect worker is spawned exactly once by any positive number
of `NetworkDeviceAttachmentWasDisconnected` calls (and never more than once by
any number of calls), and the worker's trace closes the public channel exactly
once, as its last action, only when the stage-1 channel has closed — and never
before: while the stage-1 channel is open the trace contains no close. -/
theorem disconnect_worker_spawn_once_close_once (macOSVersion n : Nat)
    (hm : 12 ≤ macOSVersion) (hn : 1 ≤ n)
    (cfg : List VirtioNetworkDeviceConfiguration) (evs : List disconnected) :
    (subscribeCalls macOSVersion { watchStarted := false, spawnCount := 0 } n).spawnCount = 1 ∧
    (∀ m : Nat,
      (subscribeCalls macOSVersion { watchStarted := false, spawnCount := 0 } m).spawnCount ≤ 1) ∧
    (watchDisconnectedTrace cfg evs false).filter (fun a => a == DiscAction.closeOut) = [] ∧
    ((watchDisconnectedTrace cfg evs true).filter
      (fun a => a == DiscAction.closeOut)).length = 1 ∧
    (watchDisconnectedTrace cfg evs true).getLast? = some DiscAction.closeOut ∧
    (watchDisconnectedTrace cfg evs true).dropLast =
      evs.map (fun d => DiscAction.publish (emitDisconnectedError cfg d)) := by
  have hstep : subscribeCalls macOSVersion { watchStarted := false, spawnCount := 0 } 1 =
      { watchStarted := true, spawnCount := 1 } := by
    rw [subscribeCalls, NetworkDeviceAttachmentWasDisconnected, if_neg (by omega)]
    rfl
  have hpos : ∀ m : Nat, 1 ≤ m →
      subscribeCalls macOSVersion { watchStarted := false, spawnCount := 0 } m =
        { watchStarted := true, spawnCount := 1 } := by
    intro m hm1
    obtain ⟨k, rfl⟩ : ∃ k, m = k + 1 := ⟨m - 1, by omega⟩
    rw [subscribeCalls, NetworkDeviceAttachmentWasDisconnected, if_neg (by omega)]
    show subscribeCalls macOSVersion { watchStarted := true, spawnCount := 0 + 1 } k = _
    exact subscribeCalls_started macOSVersion k _ rfl
  have hfilter : (evs.map (fun d => DiscAction.publish (emitDisconnectedError cfg d))).filter
      (fun a => a == DiscAction.closeOut) = [] := by
    rw [List.filter_eq_nil]
    intro a ha
    obtain ⟨d, _, rfl⟩ := List.mem_map.1 ha
    simp
  refine ⟨by rw [hpos n hn], ?_, ?_, ?_, ?_, ?_⟩
  · intro m
    cases m with
    | zero => exact Nat.zero_le 1
    | succ k => rw [hpos (k + 1) (by omega)]
  · simpa [watchDisconnectedTrace] using hfilter
  · rw [watchDisconnectedTrace, if_pos rfl, List.filter_append, hfilter]
    rfl
  · rw [watchDisconnectedTrace, if_pos rfl, List.getLast?_concat]
  · rw [watchDisconnectedTrace, if_pos rfl, List.dropLast_concat]

/-- Witness for `disconnect_worker_spawn_once_close_once` at a concrete
input: macOS 12, two subscription calls, one configured device and one event. -/
theorem disconnect_worker_spawn_once_close_once_witness :
    ((12 : Nat) ≤ 12 ∧ (1 : Nat) ≤ 2) ∧
    ((subscribeCalls 12 { watchStarted := false, spawnCount := 0 } 2).spawnCount = 1 ∧
      (∀ m : Nat,
        (subscribeCalls 12 { watchStarted := false, spawnCount := 0 } m).spawnCount ≤ 1) ∧
      (watchDisconnectedTrace [⟨5⟩] [⟨some 3, 0⟩] false).filter
        (fun a => a == DiscAction.closeOut) = [] ∧
      ((watchDisconnectedTrace [⟨5⟩] [⟨some 3, 0⟩] true).filter
        (fun a => a == DiscAction.closeOut)).length = 1 ∧
      (watchDisconnectedTrace [⟨5⟩] [⟨some 3, 0⟩] true).getLast? = some DiscAction.closeOut ∧
      (watchDisconnectedTrace [⟨5⟩] [⟨some 3, 0⟩] true).dropLast =
        ([⟨some 3, 0⟩] : List disconnected).map
          (fun d => DiscAction.publish (emitDisconnectedError [⟨5⟩] d))) :=
  ⟨⟨by decide, by decide⟩,
    disconnect_worker_spawn_once_close_once 12 2 (by decide) (by decide) [⟨5⟩] [⟨some 3, 0⟩]⟩

/-- C5: the pipeline maps every stage-1 event to one published
`DisconnectedError` (it keeps processing: one output per event, in order); the
published error carries the event's cause and the configuration looked up at
the event's device index — the device's configuration when the index is in
range of the configuration list, and none when it is out of range. -/
theorem disconnect_event_enrichment (cfg : List VirtioNetworkDeviceConfiguration)
    (events : List disconnected) :
    (watchDisconnected cfg events).length = events.length ∧
    ∀ i : Nat, ∀ d : disconnected, events.get? i = some d →
      ((watchDisconnected cfg events).get? i =
        some { Err := d.err, Config := FindValueByIndex cfg d.index } ∧
      (∀ h2 : d.index.toNat < cfg.length, 0 ≤ d.index →
        FindValueByIndex cfg d.index = some (cfg.get ⟨d.index.toNat, h2⟩)) ∧
      (¬(0 ≤ d.index ∧ d.index.toNat < cfg.length) →
        FindValueByIndex cfg d.index = none)) := by
  refine ⟨List.length_map events _, fun i d hd => ⟨?_, fun h2 h1 => ?_, fun hout => ?_⟩⟩
  · rw [watchDisconnected, List.get?_map, hd]
    rfl
  · rw [FindValueByIndex, dif_pos ⟨h1, h2⟩]
  · rw [FindValueByIndex, dif_neg hout]

/-- Witness for `disconnect_event_enrichment` at a concrete input: two
configured devices; an in-range event (index 1), an out-of-range event
(index 9) and a negative-index event (index -1) are all processed. -/
theorem disconnect_event_enrichment_witness :
    (watchDisconnected [⟨5⟩, ⟨7⟩] [⟨some 3, 1⟩, ⟨none, 9⟩, ⟨some 4, -1⟩]).length = 3 ∧
    ([⟨some 3, 1⟩, ⟨none, 9⟩, ⟨some 4, -1⟩] : List disconnected).get? 0 = some ⟨some 3, 1⟩ ∧
    (watchDisconnected [⟨5⟩, ⟨7⟩] [⟨some 3, 1⟩, ⟨none, 9⟩, ⟨some 4, -1⟩]).get? 0 =
      some { Err := some 3, Config := FindValueByIndex [⟨5⟩, ⟨7⟩] 1 } ∧
    (watchDisconnected [⟨5⟩, ⟨7⟩] [⟨some 3, 1⟩, ⟨none, 9⟩, ⟨some 4, -1⟩]).get? 1 =
      some { Err := none, Config := FindValueByIndex [⟨5⟩, ⟨7⟩] 9 } ∧
    (watchDisconnected [⟨5⟩, ⟨7⟩] [⟨some 3, 1⟩, ⟨none, 9⟩, ⟨some 4, -1⟩]).get? 2 =
      some { Err := some 4, Config := FindValueByIndex [⟨5⟩, ⟨7⟩] (-1) } ∧
    FindValueByIndex [⟨5⟩, ⟨7⟩] 1 = some ⟨7⟩ ∧
    FindValueByIndex [⟨5⟩, ⟨7⟩] 9 = none ∧
    FindValueByIndex [⟨5⟩, ⟨7⟩] (-1) = none :=
  ⟨(disconnect_event_enrichment [⟨5⟩, ⟨7⟩] [⟨some 3, 1⟩, ⟨none, 9⟩, ⟨some 4, -1⟩]).1,
    rfl,
    ((disconnect_event_enrichment [⟨5⟩, ⟨7⟩]
      [⟨some 3, 1⟩, ⟨none, 9⟩, ⟨some 4, -1⟩]).2 0 ⟨some 3, 1⟩ rfl).1,
    ((disconnect_event_enrichment [⟨5⟩, ⟨7⟩]
      [⟨some 3, 1⟩, ⟨none, 9⟩, ⟨some 4, -1⟩]).2 1 ⟨none, 9⟩ rfl).1,
    ((disconnect_event_enrichment [⟨5⟩, ⟨7⟩]
      [⟨some 3, 1⟩, ⟨none, 9⟩, ⟨some 4, -1⟩]).2 2 ⟨some 4, -1⟩ rfl).1,
    by decide, by decide, by decide⟩

/-! ## Window lifecycle and teardown (`virtualization.go` lines 170-181,
233-248, 411-531)

The Go side tracks `hasGUIWindow` and the persistent `windowClosedHandle`
cgo token; the foreign presentation surface (`hasVirtualMachineWindow`,
`showVirtualMachineWindow`, window creation/closing in the Objective-C layer,
not part of `src/`) is modelled from the spec as a `surfaceLive` boolean:
window creation and `showVirtualMachineWindow` make the surface report
presence, a window close makes it report absence. -/

/-- Values registered in the cgo handle table that the window-closed callback
can encounter. -/
inductive RegVal where
  | vmRef
  | machineStateRef
  | otherRef
  deriving DecidableEq

/-- Embeds the `VirtualMachine` fields touched by the window and teardown
paths. -/
structure VirtualMachine where
  id : Nat
  supported : Bool
  hasGUIWindow : Bool
  windowClosedHandle : Nat
  deriving DecidableEq

/-- Foreign window calls issued by the Go side. -/
inductive ForeignCall where
  | startVirtualMachineWindow (width height : Rat) (title : String)
      (enableController : Bool) (windowClosedHandle : Nat) (confirmStopOnClose : Bool)
  | bringVirtualMachineWindowToFront
  | showVirtualMachineWindow
  deriving DecidableEq

/-- World for the window and teardown paths: the VM record, the cgo handle
allocator and table, the log of issued foreign window calls, the
(spec-modelled) surface liveness, the `finalizeOnce` latch and counters
observing the guarded teardown block. -/
structure World where
  vm : VirtualMachine
  nextHandle : Nat
  registry : List (Nat × RegVal)
  foreignCalls : List ForeignCall
  surfaceLive : Bool
  finalizeDone : Bool
  handleDeleteCount : Nat
  dispatchReleaseCount : Nat
  objcReleaseCount : Nat
  finalizeBlockCount : Nat
  deriving DecidableEq

/-- Errors returned by the Go control and window operations. -/
inductive GoError where
  | unsupportedOnPlatform (requiredVersion : Nat)
  | optionError (msg : String)
  | guiWindowDoesNotExist
  | guiWindowNotAvailable
  | guiNeverInitialized
  deriving DecidableEq

/-- Embeds `macOSAvailable(version)`: fails when the running macOS major
version is below the required one. -/
def macOSAvailable (macOSVersion requiredVersion : Nat) : Option GoError :=
  if macOSVersion < requiredVersion then some (GoError.unsupportedOnPlatform requiredVersion)
  else none

/-- Embeds `startGraphicApplicationOptions` (`virtualization.go` lines
411-415). -/
structure startGraphicApplicationOptions where
  title : String
  enableController : Bool
  confirmStopOnClose : Bool
  deriving DecidableEq

/-- Embeds `StartGraphicApplicationOption` (line 418). -/
abbrev StartGraphicApplicationOption :=
  startGraphicApplicationOptions → Except GoError startGraphicApplicationOptions

/-- Embeds `WithWindowTitle` (lines 421-426). -/
def WithWindowTitle (title : String) : StartGraphicApplicationOption :=
  fun sgao => Except.ok { sgao with title := title }

/-- Embeds `WithController` (lines 429-434). -/
def WithController (enable : Bool) : StartGraphicApplicationOption :=
  fun sgao => Except.ok { sgao with enableController := enable }

/-- Embeds `WithConfirmStopOnClose` (lines 439-444). -/
def WithConfirmStopOnClose (enable : Bool) : StartGraphicApplicationOption :=
  fun sgao => Except.ok { sgao with confirmStopOnClose := enable }

/-- Embeds the option-application loop of `StartGraphicApplication` (lines
458-462): the first failing option aborts the call. -/
def applyOptions (o : startGraphicApplicationOptions) :
    List StartGraphicApplicationOption → Except GoError startGraphicApplicationOptions
  | [] => Except.ok o
  | f :: rest =>
    match f o with
    | Except.error e => Except.error e
    | Except.ok o1 => applyOptions o1 rest

/-- Embeds `StartGraphicApplication` (`virtualization.go` lines 451-483): gated
on macOS 12, applies the options (default: empty title, no controller, confirm
on close), sets `hasGUIWindow := true`, registers a new cgo handle for the
window-closed callback on every call — `v.windowClosedHandle =
cgo.NewHandle(v)` is unconditional — and issues the foreign window-creation
call carrying the dimensions unchecked.  The surface coming up is the foreign
call's effect, modelled from the spec. -/
def StartGraphicApplication (macOSVersion : Nat) (w : World) (width height : Rat)
    (opts : List StartGraphicApplicationOption) : Except GoError World :=
  match macOSAvailable macOSVersion 12 with
  | some e => Except.error e
  | none =>
    match applyOptions
        { title := "", enableController := false, confirmStopOnClose := true } opts with
    | Except.error e => Except.error e
    | Except.ok o =>
      let token := w.nextHandle
      Except.ok { w with
        vm := { w.vm with hasGUIWindow := true, windowClosedHandle := token },
        nextHandle := w.nextHandle + 1,
        registry := (token, RegVal.vmRef) :: w.registry,
        foreignCalls := w.foreignCalls ++
          [ForeignCall.startVirtualMachineWindow width height o.title o.enableController
            token o.confirmStopOnClose],
        surfaceLive := true }

/-- Embeds `BringWindowToFront` (lines 490-505); the foreign
`hasVirtualMachineWindow` liveness check is modelled from the spec as
`surfaceLive`. -/
def BringWindowToFront (macOSVersion : Nat) (w : World) : Except GoError World :=
  match macOSAvailable macOSVersion 12 with
  | some e => Except.error e
  | none =>
    if !w.vm.hasGUIWindow then Except.error GoError.guiWindowDoesNotExist
    else if !w.surfaceLive then Except.error GoError.guiWindowNotAvailable
    else Except.ok { w with
      foreignCalls := w.foreignCalls ++ [ForeignCall.bringVirtualMachineWindowToFront] }

/-- Embeds `ShowWindow` (lines 512-524); the foreign
`showVirtualMachineWindow` effect on the surface is modelled from the spec. -/
def ShowWindow (macOSVersion : Nat) (w : World) : Except GoError World :=
  match macOSAvailable macOSVersion 12 with
  | some e => Except.error e
  | none =>
    if w.vm.windowClosedHandle = 0 then Except.error GoError.guiNeverInitialized
    else Except.ok { w with
      vm := { w.vm with hasGUIWindow := true },
      foreignCalls := w.foreignCalls ++ [ForeignCall.showVirtualMachineWindow],
      surfaceLive := true }

/-- Embeds `HasGUIWindow` (lines 527-531): the Go flag AND the foreign surface
liveness check (the latter modelled from the spec). -/
def HasGUIWindow (w : World) : Bool :=
  w.vm.hasGUIWindow && w.surfaceLive

/-- Embeds `notifyWindowClosed` (lines 233-248): token 0 returns immediately;
a token registered to something other than a `VirtualMachine` returns without
modification; a VM token sets the VM's `hasGUIWindow` to false; the token is
never deleted here. -/
def notifyWindowClosed (w : World) (token : Nat) : World :=
  if token = 0 then w
  else
    match resolve w.registry token with
    | some RegVal.vmRef => { w with vm := { w.vm with hasGUIWindow := false } }
    | _ => w

/-- A runtime-driven close of the GUI window: the UI layer closes the native
window (the surface reports absence — modelled from the spec) and fires the
window-closed callback with the VM's persistent token. -/
def windowClosedEvent (w : World) : World :=
  notifyWindowClosed { w with surfaceLive := false } w.vm.windowClosedHandle

/-- Embeds `finalize` (`virtualization.go` lines 170-181): guarded by
`finalizeOnce.Do` — under which concurrent and repeated invocations serialize
and at most one runs the block — it deletes the window-closed handle when one
was allocated, releases the dispatch queue and releases the VM object.
`finalizeBlockCount` counts executions of the guarded block. -/
def finalize (w : World) : World :=
  if w.finalizeDone then w
  else
    let w1 :=
      if w.vm.windowClosedHandle ≠ 0 then
        { w with
          registry := w.registry.filter (fun p => p.1 != w.vm.windowClosedHandle),
          vm := { w.vm with windowClosedHandle := 0 },
          handleDeleteCount := w.handleDeleteCount + 1 }
      else w
    { w1 with
      finalizeDone := true,
      dispatchReleaseCount := w1.dispatchReleaseCount + 1,
      objcReleaseCount := w1.objcReleaseCount + 1,
      finalizeBlockCount := w1.finalizeBlockCount + 1 }

/-- Concrete fresh world: the state of a VM right after `NewVirtualMachine`.
The handle table already holds the machine-state and disconnect-channel
handles; no GUI window exists, no window-closed handle is allocated, teardown
has not run. -/
def initialWorld : World :=
  { vm := { id := 0, supported := true, hasGUIWindow := false, windowClosedHandle := 0 },
    nextHandle := 3,
    registry := [(1, RegVal.machineStateRef), (2, RegVal.otherRef)],
    foreignCalls := [],
    surfaceLive := false,
    finalizeDone := false,
    handleDeleteCount := 0,
    dispatchReleaseCount := 0,
    objcReleaseCount := 0,
    finalizeBlockCount := 0 }

/-- C2 (code behaviour at the failing input): `StartGraphicApplication` does
not validate its dimensions.  Called with width 0 (or height 0) on macOS 12
with no options, it returns no error, sets the window flag, allocates a handle
and issues the foreign window-creation call carrying the non-positive
dimension — it does not fail with a validation error and does not skip the
foreign call. -/
theorem startGraphicApplication_no_dimension_validation :
    StartGraphicApplication 12 initialWorld 0 600 [] =
      Except.ok { initialWorld with
        vm := { initialWorld.vm with hasGUIWindow := true, windowClosedHandle := 3 },
        nextHandle := 4,
        registry := (3, RegVal.vmRef) :: initialWorld.registry,
        foreignCalls := [ForeignCall.startVirtualMachineWindow 0 600 "" false 3 true],
        surfaceLive := true } ∧
    StartGraphicApplication 12 initialWorld 800 0 [] =
      Except.ok { initialWorld with
        vm := { initialWorld.vm with hasGUIWindow := true, windowClosedHandle := 3 },
        nextHandle := 4,
        registry := (3, RegVal.vmRef) :: initialWorld.registry,
        foreignCalls := [ForeignCall.startVirtualMachineWindow 800 0 "" false 3 true],
        surfaceLive := true } :=
  ⟨rfl, rfl⟩

/-- C6: running teardown twice executes the guarded release logic exactly
once: the observable counter inside the guarded block ends at 1, the dispatch
queue and the VM object are released once each, the window-closed handle is
deleted at most once (once exactly when one was allocated), and the second
invocation changes nothing at all.  Concurrent invocations serialize through
`finalizeOnce.Do`, so any interleaving of two calls is one of the two
(symmetric) sequential orders modelled here. -/
theorem finalize_release_exactly_once (w : World) (hd : w.finalizeDone = false)
    (hc : w.finalizeBlockCount = 0) (hdel : w.handleDeleteCount = 0)
    (hq : w.dispatchReleaseCount = 0) (ho : w.objcReleaseCount = 0) :
    (finalize (finalize w)).finalizeBlockCount = 1 ∧
    (finalize (finalize w)).dispatchReleaseCount = 1 ∧
    (finalize (finalize w)).objcReleaseCount = 1 ∧
    (finalize (finalize w)).handleDeleteCount =
      (if w.vm.windowClosedHandle ≠ 0 then 1 else 0) ∧
    (finalize (finalize w)).vm.windowClosedHandle = 0 ∧
    finalize (finalize w) = finalize w := by
  have h1 : (finalize w).finalizeDone = true := by
    by_cases hh : w.vm.windowClosedHandle ≠ 0 <;>
      simp [finalize, hd, hh]
  have h2 : finalize (finalize w) = finalize w := by
    rw [finalize.eq_def]
    rw [if_pos h1]
  by_cases hh : w.vm.windowClosedHandle ≠ 0 <;>
    simp [h2, finalize, hd, hh, hc, hdel, hq, ho] <;> omega

/-- Concrete world for the teardown witness: a VM whose window-close handle
(token 3) is allocated and registered, teardown not yet run. -/
def c6World : World :=
  { vm := { id := 0, supported := true, hasGUIWindow := true, windowClosedHandle := 3 },
    nextHandle := 4,
    registry := [(3, RegVal.vmRef), (1, RegVal.machineStateRef), (2, RegVal.otherRef)],
    foreignCalls := [],
    surfaceLive := true,
    finalizeDone := false,
    handleDeleteCount := 0,
    dispatchReleaseCount := 0,
    objcReleaseCount := 0,
    finalizeBlockCount := 0 }

/-- Witness for `finalize_release_exactly_once` at a concrete world with an
allocated window-closed handle. -/
theorem finalize_release_exactly_once_witness :
    (c6World.finalizeDone = false ∧ c6World.finalizeBlockCount = 0 ∧
      c6World.handleDeleteCount = 0 ∧ c6World.dispatchReleaseCount = 0 ∧
      c6World.objcReleaseCount = 0) ∧
    ((finalize (finalize c6World)).finalizeBlockCount = 1 ∧
      (finalize (finalize c6World)).dispatchReleaseCount = 1 ∧
      (finalize (finalize c6World)).objcReleaseCount = 1 ∧
      (finalize (finalize c6World)).handleDeleteCount =
        (if c6World.vm.windowClosedHandle ≠ 0 then 1 else 0) ∧
      (finalize (finalize c6World)).vm.windowClosedHandle = 0 ∧
      finalize (finalize c6World) = finalize c6World) :=
  ⟨⟨rfl, rfl, rfl, rfl, rfl⟩,
    finalize_release_exactly_once c6World rfl rfl rfl rfl rfl⟩

/-- World after one successful `StartGraphicApplication` on the fresh VM. -/
def c7World1 : World :=
  ((StartGraphicApplication 12 initialWorld 800 600 []).toOption).getD initialWorld

/-- World after a second `StartGraphicApplication` on the same VM. -/
def c7World2 : World :=
  ((StartGraphicApplication 12 c7World1 800 600 []).toOption).getD c7World1

/-- C7 counterexample: the second `StartGraphicApplication` call on the same
VM does not reuse the first call's window-close token — it allocates a fresh
cgo handle (the allocator advances again) and overwrites the stored token with
the new, different one. -/
theorem startGraphicApplication_handle_not_reused_counterexample :
    c7World1.vm.windowClosedHandle = 3 ∧
    c7World1.nextHandle = 4 ∧
    c7World2.vm.windowClosedHandle = 4 ∧
    c7World2.nextHandle = 5 ∧
    c7World2.vm.windowClosedHandle ≠ c7World1.vm.windowClosedHandle :=
  ⟨rfl, rfl, rfl, rfl, by decide⟩

/-- C7 amended: every successful `StartGraphicApplication` call allocates a
fresh window-close handle token (the current allocator value, advancing the
allocator) and overwrites the VM's stored token with it; whenever the stored
token predates the allocator frontier, the new token differs from it — tokens
are not reused across calls. -/
theorem startGraphicApplication_fresh_handle_each_call (macOSVersion : Nat)
    (w : World) (width height : Rat) (hm : 12 ≤ macOSVersion) :
    StartGraphicApplication macOSVersion w width height [] =
      Except.ok { w with
        vm := { w.vm with hasGUIWindow := true, windowClosedHandle := w.nextHandle },
        nextHandle := w.nextHandle + 1,
        registry := (w.nextHandle, RegVal.vmRef) :: w.registry,
        foreignCalls := w.foreignCalls ++
          [ForeignCall.startVirtualMachineWindow width height "" false w.nextHandle true],
        surfaceLive := true } ∧
    (w.vm.windowClosedHandle < w.nextHandle → w.nextHandle ≠ w.vm.windowClosedHandle) := by
  constructor
  · rw [StartGraphicApplication, macOSAvailable, if_neg (by omega)]
    rfl
  · omega

/-- Witness for `startGraphicApplication_fresh_handle_each_call` at the fresh
world on macOS 12. -/
theorem startGraphicApplication_fresh_handle_each_call_witness :
    ((12 : Nat) ≤ 12) ∧
    (StartGraphicApplication 12 initialWorld 800 600 [] =
      Except.ok { initialWorld with
        vm := { initialWorld.vm with
                hasGUIWindow := true
                windowClosedHandle := initialWorld.nextHandle },
        nextHandle := initialWorld.nextHandle + 1,
        registry := (initialWorld.nextHandle, RegVal.vmRef) :: initialWorld.registry,
        foreignCalls := initialWorld.foreignCalls ++
          [ForeignCall.startVirtualMachineWindow 800 600 "" false initialWorld.nextHandle true],
        surfaceLive := true } ∧
    (initialWorld.vm.windowClosedHandle < initialWorld.nextHandle →
      initialWorld.nextHandle ≠ initialWorld.vm.windowClosedHandle)) :=
  ⟨by decide, startGraphicApplication_fresh_handle_each_call 12 initialWorld 800 600 (by decide)⟩

/-- C8: on the fresh VM, `BringWindowToFront` and `ShowWindow` both fail with
their precondition errors before any `StartGraphicApplication` call; after one
`StartGraphicApplication` call (any dimensions) the window exists; after a
window-closed notification it no longer does; `ShowWindow` then succeeds and
`HasGUIWindow` becomes true again. -/
theorem window_preconditions_and_show_cycle (width height : Rat) :
    BringWindowToFront 12 initialWorld = Except.error GoError.guiWindowDoesNotExist ∧
    ShowWindow 12 initialWorld = Except.error GoError.guiNeverInitialized ∧
    (let w1 := ((StartGraphicApplication 12 initialWorld width height []).toOption).getD
      initialWorld
     let w2 := windowClosedEvent w1
     HasGUIWindow w1 = true ∧
     HasGUIWindow w2 = false ∧
     ShowWindow 12 w2 =
       Except.ok { w2 with
         vm := { w2.vm with hasGUIWindow := true },
         foreignCalls := w2.foreignCalls ++ [ForeignCall.showVirtualMachineWindow],
         surfaceLive := true } ∧
     HasGUIWindow (((ShowWindow 12 w2).toOption).getD w2) = true) :=
  ⟨rfl, rfl, rfl, rfl, rfl, rfl⟩

/-- C10: the window-closed callback is safe: with token 0 it changes nothing;
with a token registered to a non-VM value (the machine-state handle or any
other handle) it changes nothing and deletes nothing; with the VM's token it
sets `hasGUIWindow` to false and changes nothing else — not the VM's other
fields, not the handle table (the token survives), not the rest of the
world. -/
theorem notifyWindowClosed_state_safety (w : World) (t : Nat) :
    notifyWindowClosed w 0 = w ∧
    (resolve w.registry t = some RegVal.machineStateRef → notifyWindowClosed w t = w) ∧
    (resolve w.registry t = some RegVal.otherRef → notifyWindowClosed w t = w) ∧
    (t ≠ 0 → resolve w.registry t = some RegVal.vmRef →
      notifyWindowClosed w t =
        { w with vm := { w.vm with hasGUIWindow := false } } ∧
      (notifyWindowClosed w t).vm.id = w.vm.id ∧
      (notifyWindowClosed w t).vm.supported = w.vm.supported ∧
      (notifyWindowClosed w t).vm.windowClosedHandle = w.vm.windowClosedHandle ∧
      (notifyWindowClosed w t).registry = w.registry) := by
  refine ⟨rfl, fun hms => ?_, fun hot => ?_, fun ht hvm => ?_⟩
  · rw [notifyWindowClosed]
    by_cases h0 : t = 0
    · rw [if_pos h0]
    · rw [if_neg h0, hms]
  · rw [notifyWindowClosed]
    by_cases h0 : t = 0
    · rw [if_pos h0]
    · rw [if_neg h0, hot]
  · have heq : notifyWindowClosed w t =
        { w with vm := { w.vm with hasGUIWindow := false } } := by
      rw [notifyWindowClosed, if_neg ht, hvm]
    exact ⟨heq, by rw [heq], by rw [heq], by rw [heq], by rw [heq]⟩

/-- Witness for `notifyWindowClosed_state_safety` at a concrete world holding
a machine-state handle (token 1), another handle (token 2) and the VM's
window-close handle (token 3). -/
theorem notifyWindowClosed_state_safety_witness :
    (resolve c7World1.registry 1 = some RegVal.machineStateRef ∧
      resolve c7World1.registry 2 = some RegVal.otherRef ∧
      (3 : Nat) ≠ 0 ∧ resolve c7World1.registry 3 = some RegVal.vmRef) ∧
    (notifyWindowClosed c7World1 0 = c7World1 ∧
      notifyWindowClosed c7World1 1 = c7World1 ∧
      notifyWindowClosed c7World1 2 = c7World1 ∧
      notifyWindowClosed c7World1 3 =
        { c7World1 with vm := { c7World1.vm with hasGUIWindow := false } } ∧
      (notifyWindowClosed c7World1 3).vm.windowClosedHandle =
        c7World1.vm.windowClosedHandle ∧
      (notifyWindowClosed c7World1 3).registry = c7World1.registry) :=
  ⟨⟨rfl, rfl, by decide, rfl⟩,
    (notifyWindowClosed_state_safety c7World1 0).1,
    (notifyWindowClosed_state_safety c7World1 1).2.1 rfl,
    (notifyWindowClosed_state_safety c7World1 2).2.2.1 rfl,
    ((notifyWindowClosed_state_safety c7World1 3).2.2.2 (by decide) rfl).1,
    ((notifyWindowClosed_state_safety c7World1 3).2.2.2 (by decide) rfl).2.2.2.1,
    ((notifyWindowClosed_state_safety c7World1 3).2.2.2 (by decide) rfl).2.2.2.2⟩

end Vz
